import Mathlib

/-!
Verification of the lsst/tutorial-notebooks repository specification.

The repository is a corpus of Jupyter tutorial notebooks (plus one shell
script, update.sh).  The development below embeds, per claim:

* an effect-level inventory of every code cell of every notebook
  (which cells handle exceptions, fetch remote handles or images,
  assert non-nullness, or write local files);
* the anomaly-selection computation of the DiaObject-anomalies notebook
  (argsort of the IsolationForest scores, first 20 indices);
* the get_stat bootstrap helper of the weak-lensing notebook;
* the flux-to-magnitude transforms;
* the NaN-replacement step of the source-injection notebook;
* the update.sh sentinel-refresh script.
-/

namespace TutorialNB

/-! ## Effect-level inventory of the notebooks

Each notebook is embedded as its ordered list of code cells; a cell is
recorded with the effects that appear in its source:

* `tryExceptPass`   : a try/except block whose handler is a bare pass
* `fetchTAP`        : a call of get_tap_service
* `butlerGetImage`  : a butler.get of a calexp / deepCoadd image
* `butlerGetOther`  : a butler.get of any other dataset type
* `assertNonNull`   : an assert that a value is not None
* `assertJobPhase`  : an assert on a TAP job phase
* `writeLocal f`    : a write of file f to local disk

Cells with none of these effects are recorded with an empty effect list.
-/

inductive Effect where
  | tryExceptPass : Effect
  | fetchTAP : Effect
  | butlerGetImage : Effect
  | butlerGetOther : Effect
  | assertNonNull : Effect
  | assertJobPhase : Effect
  | writeLocal : String → Effect
deriving DecidableEq

structure CodeCell where
  idx : Nat
  effects : List Effect
deriving DecidableEq

structure Notebook where
  name : String
  cells : List CodeCell
deriving DecidableEq

/-- Build the cell list of a notebook with `n` code cells from the map
sending a cell index to its recorded effects. -/
def mkCells (n : Nat) (eff : Nat → List Effect) : List CodeCell :=
  (List.range n).map (fun i => ⟨i, eff i⟩)

/-- DP0.2 notebook 07a, DiaObject anomalies (src/unnamed/part_000): 21 code
cells.  Cell 3 gets the TAP service and asserts it is not None; cell 14
defines cutout_im whose body calls butler.get for a calexp cutout and its
wcs; cell 18 calls cutout_im (so fetches calexp cutouts) with no assert. -/
def anomalyNotebookEffects : Nat → List Effect
  | 3 => [Effect.fetchTAP, Effect.assertNonNull]
  | 14 => [Effect.butlerGetImage, Effect.butlerGetOther]
  | 18 => [Effect.butlerGetImage]
  | _ => []

def anomalyNotebook : Notebook :=
  ⟨"07a-dia-object-anomalies", mkCells 21 anomalyNotebookEffects⟩

/-- DP0.2 notebook 01, introduction (src/unnamed/part_001): 31 code cells.
Cell 6 gets the TAP service with no assert; cell 26 butler.get of skyMap;
cell 27 butler.get of a deepCoadd with no assert. -/
def introNotebookEffects : Nat → List Effect
  | 6 => [Effect.fetchTAP]
  | 26 => [Effect.butlerGetOther]
  | 27 => [Effect.butlerGetImage]
  | _ => []

def introNotebook : Notebook :=
  ⟨"01-intro-to-dp02", mkCells 31 introNotebookEffects⟩

/-- DP0.2 notebook 14, synthetic source injection (src/unnamed/part_002,
first document): 33 code cells.  Cell 6 fetches a calexp with no assert;
cell 23 writes the rotated stamp FITS file to the home directory; cell 30
fetches the goodSeeingDiff template exposure; cell 31 wraps the
sourceSelector config override in try/except pass and fetches the src
catalog. -/
def sourceInjectionNotebookEffects : Nat → List Effect
  | 6 => [Effect.butlerGetImage]
  | 23 => [Effect.writeLocal ("stamp_rotated.fits")]
  | 30 => [Effect.butlerGetOther]
  | 31 => [Effect.tryExceptPass, Effect.butlerGetOther]
  | _ => []

def sourceInjectionNotebook : Notebook :=
  ⟨"14-source-injection", mkCells 33 sourceInjectionNotebookEffects⟩

/-- DP0.2 notebook 15, survey property maps (src/unnamed/part_002, second
document): 26 code cells.  Cells 3, 19, 20 fetch consolidated healsparse
maps; cell 12 fetches the skyMap; cell 14 fetches a deepCoadd with no
assert. -/
def propertyMapsNotebookEffects : Nat → List Effect
  | 3 => [Effect.butlerGetOther]
  | 12 => [Effect.butlerGetOther]
  | 14 => [Effect.butlerGetImage]
  | 19 => [Effect.butlerGetOther]
  | 20 => [Effect.butlerGetOther]
  | _ => []

def propertyMapsNotebook : Notebook :=
  ⟨"15-survey-property-maps", mkCells 26 propertyMapsNotebookEffects⟩

/-- DP0.2 notebook 06a, interactive image visualization
(src/unnamed/part_003): 28 code cells.  Cell 6 fetches a calexp and
asserts it is not None; cell 7 fetches the sourceTable; cell 8 fetches a
deepCoadd and asserts it is not None; cell 10 fetches the objectTable;
cell 19 saves the interactive HTML file with hv.save. -/
def interactiveVizNotebookEffects : Nat → List Effect
  | 6 => [Effect.butlerGetImage, Effect.assertNonNull]
  | 7 => [Effect.butlerGetOther]
  | 8 => [Effect.butlerGetImage, Effect.assertNonNull]
  | 10 => [Effect.butlerGetOther]
  | 19 => [Effect.writeLocal ("nb06a_plot1.html")]
  | _ => []

def interactiveVizNotebook : Notebook :=
  ⟨"06a-interactive-image-viz", mkCells 28 interactiveVizNotebookEffects⟩

/-- Galaxy cluster weak lensing notebook (src/unnamed/part_004): 24 code
cells.  Cell 2 gets the TAP service and asserts it is not None; cell 4
asserts the TAP job phase is COMPLETED; cell 15 fetches a deepCoadd with
no assert. -/
def weakLensingNotebookEffects : Nat → List Effect
  | 2 => [Effect.fetchTAP, Effect.assertNonNull]
  | 4 => [Effect.assertJobPhase]
  | 15 => [Effect.butlerGetImage]
  | _ => []

def weakLensingNotebook : Notebook :=
  ⟨"weak-lensing", mkCells 24 weakLensingNotebookEffects⟩

/-- DP0.2 notebook 04a, introduction to the Butler (src/unnamed/part_005):
33 code cells.  Cell 3 fetches a calexp and cell 10 a deepCoadd, with no
asserts; cells 7, 13, 16, 21, 24, 30 fetch non-image dataset types
(difference exposure and catalogs).  The forcedSourceTable fetch in cell
27 is entirely commented out, so it is recorded with no effects. -/
def butlerNotebookEffects : Nat → List Effect
  | 3 => [Effect.butlerGetImage]
  | 7 => [Effect.butlerGetOther]
  | 10 => [Effect.butlerGetImage]
  | 13 => [Effect.butlerGetOther]
  | 16 => [Effect.butlerGetOther]
  | 21 => [Effect.butlerGetOther]
  | 24 => [Effect.butlerGetOther]
  | 30 => [Effect.butlerGetOther]
  | _ => []

def butlerNotebook : Notebook :=
  ⟨"04a-intro-to-butler", mkCells 33 butlerNotebookEffects⟩

/-- DP0.2 notebook 11, working with user packages
(src/DP0.2/11_User_Packages): 4 code cells, all plain (imports and
environment-variable prints). -/
def userPackagesNotebookEffects : Nat → List Effect
  | _ => []

def userPackagesNotebook : Notebook :=
  ⟨"11-user-packages", mkCells 4 userPackagesNotebookEffects⟩

/-- The notebooks of the repository. -/
def repository : List Notebook :=
  [anomalyNotebook, introNotebook, sourceInjectionNotebook,
   propertyMapsNotebook, interactiveVizNotebook, weakLensingNotebook,
   butlerNotebook, userPackagesNotebook]

/-- All (notebook name, cell index) pairs whose cell records the effect
`e`. -/
def cellsWithEffect (e : Effect) : List (String × Nat) :=
  (repository.map
    (fun nb => (nb.cells.filter (fun c => e ∈ c.effects)).map
      (fun c => (nb.name, c.idx)))).flatten

/-- All (notebook name, file name) pairs for local file writes. -/
def localWrites : List (String × String) :=
  (repository.map
    (fun nb => ((nb.cells.map (fun c => c.effects)).flatten.filterMap
      (fun e => match e with
        | Effect.writeLocal f => some (nb.name, f)
        | _ => none)))).flatten

/-- A cell obtains a remote service handle or fetches an image through
one: a TAP service from get_tap_service, or a calexp/deepCoadd via
butler.get. -/
def fetchesHandleOrImage (c : CodeCell) : Bool :=
  decide (Effect.fetchTAP ∈ c.effects) || decide (Effect.butlerGetImage ∈ c.effects)

/-- The fetch cells that do NOT assert non-nullness. -/
def unassertedFetches : List (String × Nat) :=
  (repository.map
    (fun nb => (nb.cells.filter
        (fun c => fetchesHandleOrImage c && !(decide (Effect.assertNonNull ∈ c.effects)))).map
      (fun c => (nb.name, c.idx)))).flatten

/-- The fetch cells that do assert non-nullness. -/
def assertedFetches : List (String × Nat) :=
  (repository.map
    (fun nb => (nb.cells.filter
        (fun c => fetchesHandleOrImage c && decide (Effect.assertNonNull ∈ c.effects))).map
      (fun c => (nb.name, c.idx)))).flatten

/-! ## Theorems for claims C1, C3, C4 -/

/-- C1 counterexample: the claim that no exception raised by a library
call is caught and suppressed anywhere in the repository is false: code
cell 31 of the source-injection notebook wraps the sourceSelector config
override of AlardLuptonSubtractConfig in a try/except block with a bare
pass handler. -/
theorem c1_counterexample :
    cellsWithEffect Effect.tryExceptPass ≠ [] ∧
    ("14-source-injection", 31) ∈ cellsWithEffect Effect.tryExceptPass := by
  decide

/-- C1 amended: exactly one cell in the whole repository catches and
suppresses an exception, namely the try/except pass around the
sourceSelector config override in code cell 31 of the source-injection
notebook; no other cell of any notebook contains exception handling. -/
theorem c1_amended_single_try_except :
    cellsWithEffect Effect.tryExceptPass = [("14-source-injection", 31)] := by
  decide

/-- C3 counterexample: the claim that exactly one notebook writes output
artifacts to local disk, writing both the HTML file and the FITS file, is
false: the FITS file is written by the source-injection notebook and the
HTML file by the interactive-visualization notebook, two distinct
notebooks. -/
theorem c3_counterexample :
    ("14-source-injection", "stamp_rotated.fits") ∈ localWrites ∧
    ("06a-interactive-image-viz", "nb06a_plot1.html") ∈ localWrites ∧
    ("14-source-injection" : String) ≠ "06a-interactive-image-viz" := by
  decide

/-- C3 amended: exactly two notebooks write output artifacts to local
disk: the source-injection notebook writes the rotated-stamp FITS file and
the interactive-visualization notebook writes the exported interactive
HTML file; no other notebook writes any local file. -/
theorem c3_amended_two_writers :
    localWrites = [("14-source-injection", "stamp_rotated.fits"),
                   ("06a-interactive-image-viz", "nb06a_plot1.html")] := by
  decide

/-- C4 counterexample: the claim that every notebook that obtains a remote
service handle or fetches an image asserts the result is non-null before
use is false: code cell 6 of the introduction notebook obtains the TAP
service handle with no assert anywhere in that notebook. -/
theorem c4_counterexample :
    unassertedFetches ≠ [] ∧
    ("01-intro-to-dp02", 6) ∈ unassertedFetches := by
  decide

/-- C4 amended: only some fetches of remote handles or images are guarded
by a non-null assert (the TAP handles of the anomalies and weak-lensing
notebooks, and the calexp and deepCoadd of the interactive-visualization
notebook); the nine other cells that obtain a TAP handle or fetch a
calexp/deepCoadd use the result without any assert. -/
theorem c4_amended_fetch_inventory :
    assertedFetches = [("07a-dia-object-anomalies", 3),
                       ("06a-interactive-image-viz", 6),
                       ("06a-interactive-image-viz", 8),
                       ("weak-lensing", 2)] ∧
    unassertedFetches = [("07a-dia-object-anomalies", 14),
                         ("07a-dia-object-anomalies", 18),
                         ("01-intro-to-dp02", 6),
                         ("01-intro-to-dp02", 27),
                         ("14-source-injection", 6),
                         ("15-survey-property-maps", 14),
                         ("weak-lensing", 15),
                         ("04a-intro-to-butler", 3),
                         ("04a-intro-to-butler", 10)] := by
  decide

/-! ## Anomaly selection (DiaObject-anomalies notebook, section 2.2)

The cell is:
  rng = np.random.RandomState(42)
  ifo = IsolationForest(max_samples=1000, random_state=rng, n_jobs=1)
  ifo.fit(sample)
  idx = np.argsort(ifo.score_samples(sample))[:20]
The IsolationForest library routine is external; it is modelled as an
abstract fitting function of the training sample and the rng seed,
returning the fitted scoring routine.  The index selection is code of
this repository and is embedded exactly: argsort of the scores, first
20 entries. -/

structure IsolationForestParams where
  max_samples : Nat
  random_state : Nat
  n_jobs : Nat
deriving DecidableEq

/-- IsolationForest(max_samples=1000, random_state=rng, n_jobs=1) with
rng = np.random.RandomState(42). -/
def notebookIfoParams : IsolationForestParams := ⟨1000, 42, 1⟩

/-- Comparison of two positions of the score list by their scores. -/
def scoreLE (scores : List ℚ) (i j : Nat) : Prop :=
  scores.getD i 0 ≤ scores.getD j 0

instance (scores : List ℚ) : DecidableRel (scoreLE scores) :=
  fun i j => inferInstanceAs (Decidable (scores.getD i 0 ≤ scores.getD j 0))

instance (scores : List ℚ) : IsTotal Nat (scoreLE scores) :=
  ⟨fun _ _ => le_total _ _⟩

instance (scores : List ℚ) : IsTrans Nat (scoreLE scores) :=
  ⟨fun _ _ _ h h2 => le_trans h h2⟩

/-- np.argsort over a list of scores: the positions 0..n-1 ordered so
that the scores read in that order are ascending. -/
def argsort (scores : List ℚ) : List Nat :=
  List.insertionSort (scoreLE scores) (List.range scores.length)

/-- idx = np.argsort(ifo.score_samples(sample))[:20] -/
def anomalySelection (scores : List ℚ) : List Nat :=
  (argsort scores).take 20

/-! ## Entropy-indexed computations (claim C2)

A notebook computation that may draw randomness is embedded as a
function of the ambient entropy available to the process.  A fixed seed
written in the code makes the ambient entropy irrelevant; an unseeded
np.random.default_rng() consumes it. -/

/-- Two runs on the same fetched input always produce the same output. -/
def deterministicInEntropy {α : Type} (f : Nat → α) : Prop :=
  ∀ e₁ e₂, f e₁ = f e₂

/-- The anomaly cell as a function of the ambient entropy: the code
seeds its generator with the literal 42 (rng = np.random.RandomState(42)),
so the ambient entropy is never consulted.  `fit` is the external
IsolationForest routine: it receives the training sample and the rng
seed and returns the fitted score_samples routine. -/
def anomalyCell (fit : List (List ℚ) → Nat → (List (List ℚ) → List ℚ))
    (sample : List (List ℚ)) (_entropy : Nat) : List Nat :=
  let rng : Nat := 42
  let scoreSamples := fit sample rng
  anomalySelection (scoreSamples sample)

/-! ## get_stat (weak-lensing notebook, section 1.2)

  def get_stat(data, statistic=np.mean, confidence_level=0.682):
      rng = np.random.default_rng()
      res = bootstrap((data,), statistic=statistic,
                      confidence_level=confidence_level, random_state=rng)
      stat = np.mean(data)
      lerr = stat - res.confidence_interval[0]
      herr = res.confidence_interval[1] - stat
      return stat, lerr, herr

scipy.stats.bootstrap is external; it is modelled as an abstract
function `bootstrapCI` of the data, the statistic, the confidence level
and the generator, returning the confidence interval (low, high).  The
unseeded np.random.default_rng() is modelled as handing the ambient
entropy to the generator. -/

/-- np.mean -/
def npMean (data : List ℚ) : ℚ := data.sum / data.length

/-- np.median: middle element of the sorted data, or the average of the
two middle elements for even length. -/
def npMedian (data : List ℚ) : ℚ :=
  let s := List.insertionSort (· ≤ ·) data
  let n := data.length
  (s.getD ((n - 1) / 2) 0 + s.getD (n / 2) 0) / 2

/-- get_stat, embedded from the source. -/
def get_stat (bootstrapCI : List ℚ → (List ℚ → ℚ) → ℚ → Nat → ℚ × ℚ)
    (entropy : Nat) (data : List ℚ) (statistic : List ℚ → ℚ)
    (confidence_level : ℚ) : ℚ × ℚ × ℚ :=
  let rng : Nat := entropy
  let res := bootstrapCI data statistic confidence_level rng
  let stat := npMean data
  let lerr := stat - res.1
  let herr := res.2 - stat
  (stat, lerr, herr)

/-! ## Theorems for claims C5, C2, C8 -/

/-- C5: the anomaly identification configures IsolationForest with
max_samples 1000 and RandomState seed 42, and the selected anomalies
idx = argsort(scores)[:20] are exactly the indices of the 20 smallest
(most negative) scores, listed in ascending score order: the selection
has min 20 n entries, all distinct valid indices, the scores along it
are ascending, and every selected index scores no higher than every
unselected one. -/
theorem c5_anomaly_selection (scores : List ℚ) :
    notebookIfoParams.max_samples = 1000 ∧
    notebookIfoParams.random_state = 42 ∧
    (anomalySelection scores).length = min 20 scores.length ∧
    (anomalySelection scores).Nodup ∧
    (∀ i ∈ anomalySelection scores, i < scores.length) ∧
    List.Pairwise (scoreLE scores) (anomalySelection scores) ∧
    (∀ i ∈ anomalySelection scores, ∀ j, j < scores.length →
      j ∉ anomalySelection scores → scoreLE scores i j) := by
  have hperm : List.Perm (argsort scores) (List.range scores.length) :=
    List.perm_insertionSort _ _
  have hsorted : List.Sorted (scoreLE scores) (argsort scores) :=
    List.sorted_insertionSort _ _
  have hlen : (argsort scores).length = scores.length := by
    rw [hperm.length_eq, List.length_range]
  have hmem : ∀ i ∈ anomalySelection scores, i < scores.length := by
    intro i hi
    have hi2 : i ∈ argsort scores :=
      (List.take_sublist _ _).mem hi
    have := hperm.mem_iff.mp hi2
    exact List.mem_range.mp this
  refine ⟨rfl, rfl, ?_, ?_, hmem, ?_, ?_⟩
  · rw [anomalySelection, List.length_take, hlen]
  · exact ((hperm.nodup_iff).mpr (List.nodup_range _)).sublist
      (List.take_sublist _ _)
  · exact List.Pairwise.sublist (List.take_sublist _ _) hsorted
  · intro i hi j hj hj2
    have hsplit : argsort scores =
        anomalySelection scores ++ (argsort scores).drop 20 :=
      (List.take_append_drop 20 (argsort scores)).symm
    have hpa := (List.pairwise_append.mp (hsplit ▸ hsorted)).2.2
    have hjmem : j ∈ argsort scores :=
      hperm.mem_iff.mpr (List.mem_range.mpr hj)
    have : j ∈ anomalySelection scores ∨ j ∈ (argsort scores).drop 20 := by
      rw [hsplit] at hjmem
      exact List.mem_append.mp hjmem
    rcases this with h | h
    · exact absurd h hj2
    · exact hpa i hi j h

/-- C2 counterexample: the claim that no notebook computation is a
deterministic function of its fetched inputs is false at the anomaly
cell: its seed is the literal 42, so two runs on the same fetched sample
give the same selected indices whatever the ambient entropy (shown here
at a concrete fitting routine and sample). -/
theorem c2_counterexample :
    deterministicInEntropy
      (anomalyCell (fun _ _ rows => rows.map (fun r => r.sum)) [[1], [5], [3]]) :=
  fun _ _ => rfl

/-- C2 amended: not every notebook computation is entropy-dependent.
The anomaly cell of the DiaObject-anomalies notebook fixes its seed to
42, so for every fitting routine and every fetched sample two runs give
the same output; the weak-lensing get_stat, instead, hands unseeded
entropy to the bootstrap, and its error bars can differ between two runs
on the same data. -/
theorem c2_amended_determinism :
    (∀ fit sample, deterministicInEntropy (anomalyCell fit sample)) ∧
    (∃ bootstrapCI data statistic confidence_level,
      ¬ deterministicInEntropy
        (fun e => get_stat bootstrapCI e data statistic confidence_level)) := by
  constructor
  · intro fit sample e₁ e₂
    rfl
  · refine ⟨fun _ _ _ rng => ((rng : ℚ), 0), [1], npMean, 0.682, fun h => ?_⟩
    have h01 := h 0 1
    simp [get_stat, npMean] at h01

/-- C8: for every non-empty data array and every statistic argument,
get_stat returns np.mean(data) as its central value (the statistic
parameter only reaches the bootstrap confidence interval), and the
errors are lerr = stat - ci_low and herr = ci_high - stat. -/
theorem c8_get_stat_returns_mean (bootstrapCI : List ℚ → (List ℚ → ℚ) → ℚ → Nat → ℚ × ℚ)
    (entropy : Nat) (data : List ℚ) (statistic : List ℚ → ℚ)
    (confidence_level : ℚ) (_hne : data ≠ []) :
    get_stat bootstrapCI entropy data statistic confidence_level =
      (npMean data,
       npMean data - (bootstrapCI data statistic confidence_level entropy).1,
       (bootstrapCI data statistic confidence_level entropy).2 - npMean data) :=
  rfl

/-- C8 witness: on the concrete data [0, 0, 3] with statistic np.median,
get_stat still returns the mean 1 as its central value, although the
median of the data is 0. -/
theorem c8_witness :
    get_stat (fun _ _ _ _ => (0, 0)) 0 [0, 0, 3] npMedian (0.682) =
      (1, 1, -1) ∧
    npMedian [0, 0, 3] = 0 ∧
    npMean [0, 0, 3] = 1 := by
  refine ⟨?_, by norm_num [npMedian, List.insertionSort, List.orderedInsert],
    by norm_num [npMean]⟩
  have h := c8_get_stat_returns_mean (fun _ _ _ _ => ((0 : ℚ), (0 : ℚ)))
    0 [0, 0, 3] npMedian (0.682) (by decide)
  rw [h]
  norm_num [npMean]

/-! ## Flux-to-magnitude transforms (claim C7)

Three notebooks convert a retrieved flux column (nanojanskys) to AB
magnitudes:
* introduction notebook:
    results_table[r_calibMag] = -2.50 * numpy.log10(results_table[r_calibFlux]) + 31.4
    results_table[r_cModelMag] = -2.50 * numpy.log10(results_table[r_cModelFlux]) + 31.4
* weak-lensing notebook:  r_cModel = -2.5*np.log10(data_s[r_cModelFlux]) + 31.4
* visualization notebook: plt.hist(-2.5 * np.log10(co_cF[tx]) + 31.4, ...)
np.log10 is external and is modelled as an abstract function. -/

/-- A catalog table: columns of rational values keyed by (unique) name. -/
abbrev Table := List (String × List ℚ)

/-- Read a column.  Column names of the catalog tables are unique, so
first-match lookup is the lookup. -/
def getCol : Table → String → Option (List ℚ)
  | [], _ => none
  | c :: t, name => if c.1 = name then some c.2 else getCol t name

/-- tbl[name] = vals : replace the column if present, append it
otherwise. -/
def setCol : Table → String → List ℚ → Table
  | [], name, vals => [(name, vals)]
  | c :: t, name, vals =>
      if c.1 = name then (name, vals) :: t else c :: setCol t name vals

/-- The AB magnitude of a nanojansky flux: m = -2.5 log10(f) + 31.4. -/
def abMagOfFlux (log10 : ℚ → ℚ) (f : ℚ) : ℚ := -2.5 * log10 f + 31.4

/-- The magnitude cell of the introduction notebook; none when a flux
column is absent (pandas would raise a KeyError there). -/
def magnitudeCell01 (log10 : ℚ → ℚ) (t : Table) : Option Table := do
  let f1 ← getCol t ("r_calibFlux")
  let t1 := setCol t ("r_calibMag") (f1.map (fun x => -2.50 * log10 x + 31.4))
  let f2 ← getCol t1 ("r_cModelFlux")
  pure (setCol t1 ("r_cModelMag") (f2.map (fun x => -2.50 * log10 x + 31.4)))

/-- r_cModel of the weak-lensing notebook, from the fetched flux column
(a fresh variable; the data_s table is not touched). -/
def wlMagnitudes (log10 : ℚ → ℚ) (flux : List ℚ) : List ℚ :=
  flux.map (fun x => -2.5 * log10 x + 31.4)

/-- The magnitudes plotted by the visualization notebook histogram
(computed inline in the plt.hist argument; no column is written). -/
def vizHistMagnitudes (log10 : ℚ → ℚ) (flux : List ℚ) : List ℚ :=
  flux.map (fun x => -2.5 * log10 x + 31.4)

theorem getCol_setCol_self (t : Table) (n : String) (v : List ℚ) :
    getCol (setCol t n v) n = some v := by
  induction t with
  | nil => simp [getCol, setCol]
  | cons c t ih =>
    by_cases h : c.1 = n
    · simp [getCol, setCol, h]
    · simp [getCol, setCol, h, ih]

theorem getCol_setCol_ne (t : Table) (n n2 : String) (v : List ℚ)
    (h : n2 ≠ n) : getCol (setCol t n v) n2 = getCol t n2 := by
  induction t with
  | nil => simp [getCol, setCol, Ne.symm h]
  | cons c t ih =>
    by_cases hc : c.1 = n
    · simp [getCol, setCol, hc, Ne.symm h]
    · simp [getCol, setCol, hc, ih]

/-- C7: wherever a notebook transforms a retrieved flux column to
magnitudes, the magnitude is elementwise -2.5 * log10(flux) + 31.4, and
the original flux columns are unchanged by the transform: the
introduction-notebook cell writes two new magnitude columns and leaves
r_calibFlux and r_cModelFlux as they were, and the weak-lensing and
visualization sites only map the formula over the fetched column. -/
theorem c7_magnitude_transform (log10 : ℚ → ℚ) (t t2 : Table)
    (h : magnitudeCell01 log10 t = some t2) :
    getCol t2 ("r_calibFlux") = getCol t ("r_calibFlux") ∧
    getCol t2 ("r_cModelFlux") = getCol t ("r_cModelFlux") ∧
    (∀ f1, getCol t ("r_calibFlux") = some f1 →
      getCol t2 ("r_calibMag") = some (f1.map (abMagOfFlux log10))) ∧
    (∀ f2, getCol t ("r_cModelFlux") = some f2 →
      getCol t2 ("r_cModelMag") = some (f2.map (abMagOfFlux log10))) ∧
    (∀ flux, wlMagnitudes log10 flux = flux.map (abMagOfFlux log10)) ∧
    (∀ flux, vizHistMagnitudes log10 flux = flux.map (abMagOfFlux log10)) := by
  have hfun : (fun x => -2.50 * log10 x + 31.4) = abMagOfFlux log10 := by
    funext x
    norm_num [abMagOfFlux]
  rcases hf1 : getCol t ("r_calibFlux") with _ | f1
  · rw [magnitudeCell01, hf1] at h
    exact absurd h (by simp)
  rcases hf2 : getCol (setCol t ("r_calibMag")
      (f1.map (fun x => -2.50 * log10 x + 31.4))) ("r_cModelFlux") with _ | f2
  · rw [magnitudeCell01, hf1] at h
    simp only [Option.bind_eq_bind, Option.some_bind] at h
    rw [hf2] at h
    exact absurd h (by simp)
  have ht2 : t2 = setCol (setCol t ("r_calibMag")
      (f1.map (fun x => -2.50 * log10 x + 31.4))) ("r_cModelMag")
      (f2.map (fun x => -2.50 * log10 x + 31.4)) := by
    rw [magnitudeCell01, hf1] at h
    simp only [Option.bind_eq_bind, Option.some_bind] at h
    rw [hf2] at h
    simp only [Option.some_bind, Option.pure_def, Option.some_inj] at h
    exact h.symm
  have hflux2 : getCol t ("r_cModelFlux") = some f2 := by
    rw [getCol_setCol_ne t _ _ _ (by decide)] at hf2
    exact hf2
  subst ht2
  have hA : ("r_calibFlux" : String) ≠ "r_cModelMag" := by decide
  have hB : ("r_calibFlux" : String) ≠ "r_calibMag" := by decide
  have hC : ("r_cModelFlux" : String) ≠ "r_cModelMag" := by decide
  have hD : ("r_cModelFlux" : String) ≠ "r_calibMag" := by decide
  have hE : ("r_calibMag" : String) ≠ "r_cModelMag" := by decide
  refine ⟨?_, ?_, ?_, ?_, fun _ => rfl, fun _ => rfl⟩
  · rw [getCol_setCol_ne _ _ _ _ hA, getCol_setCol_ne _ _ _ _ hB]
    exact hf1
  · rw [getCol_setCol_ne _ _ _ _ hC]
    exact getCol_setCol_ne _ _ _ _ hD
  · intro g1 hg1
    rw [Option.some_inj] at hg1
    subst hg1
    rw [getCol_setCol_ne _ _ _ _ hE, getCol_setCol_self, hfun]
  · intro g2 hg2
    rw [hflux2, Option.some_inj] at hg2
    subst hg2
    rw [getCol_setCol_self, hfun]

def magTable0 : Table := [("r_calibFlux", [100]), ("r_cModelFlux", [1000])]

/-- C7 witness: the introduction-notebook cell applied to a concrete
two-column table (with log10 modelled by the identity for evaluation)
leaves the flux columns unchanged and writes the mapped magnitudes. -/
theorem c7_witness :
    ∃ t2, magnitudeCell01 id magTable0 = some t2 ∧
      getCol t2 ("r_calibFlux") = getCol magTable0 ("r_calibFlux") ∧
      getCol t2 ("r_calibMag") = some ([(100 : ℚ)].map (abMagOfFlux id)) := by
  rcases hcell : magnitudeCell01 id magTable0 with _ | t2
  · exact absurd hcell (by simp [magnitudeCell01, magTable0, getCol, setCol])
  have h := c7_magnitude_transform id magTable0 t2 hcell
  exact ⟨t2, rfl, h.1, h.2.2.1 [100] rfl⟩

/-! ## NaN replacement (source-injection notebook, section 3.2.2)

  stamp_img_rotated.image.array[np.where(np.isnan(stamp_img_rotated.image.array))] = 0.0
  ...
  stamp_img_rotated.writeFits(home_directory + stamp_rotated.fits)

A float pixel is NaN or a finite value; np.isnan selects exactly the NaN
pixels and the assignment sets exactly those to 0.0.  writeFits is
modelled as capturing the image array into the written file. -/

inductive Pixel where
  | nan : Pixel
  | val : ℚ → Pixel
deriving DecidableEq

abbrev Image := List (List Pixel)

/-- The pixelwise effect of arr[np.where(np.isnan(arr))] = 0.0. -/
def fixPixel : Pixel → Pixel
  | Pixel.nan => Pixel.val 0
  | p => p

/-- arr[np.where(np.isnan(arr))] = 0.0 over the whole 2-d array. -/
def setNaNToZero (img : Image) : Image :=
  img.map (fun row => row.map fixPixel)

/-- The FITS file written by writeFits, holding the image array. -/
structure FitsFile where
  data : Image
deriving DecidableEq

def writeFits (img : Image) : FitsFile := ⟨img⟩

/-- The pixel at row i, column j. -/
def pixAt (img : Image) (i j : Nat) : Option Pixel :=
  (img[i]?).bind (fun row => row[j]?)

def hasNaN (img : Image) : Bool :=
  img.any (fun row => row.any (fun p => decide (p = Pixel.nan)))

/-- C9: the NaN-replacement step sets exactly the NaN pixels of the
rotated stamp image to 0.0 and leaves every other pixel unchanged; after
it the image contains no NaN, and the FITS file written immediately
afterwards carries that NaN-free image array. -/
theorem c9_nan_replacement (img : Image) :
    (∀ i j, pixAt (setNaNToZero img) i j = (pixAt img i j).map fixPixel) ∧
    (∀ i j, pixAt img i j = some Pixel.nan →
      pixAt (setNaNToZero img) i j = some (Pixel.val 0)) ∧
    (∀ i j p, pixAt img i j = some p → p ≠ Pixel.nan →
      pixAt (setNaNToZero img) i j = some p) ∧
    hasNaN (setNaNToZero img) = false ∧
    (writeFits (setNaNToZero img)).data = setNaNToZero img ∧
    hasNaN (writeFits (setNaNToZero img)).data = false := by
  have hmap : ∀ i j, pixAt (setNaNToZero img) i j = (pixAt img i j).map fixPixel := by
    intro i j
    rcases hrow : img[i]? with _ | row
    · simp [pixAt, setNaNToZero, hrow]
    · simp [pixAt, setNaNToZero, hrow]
  have hfix : ∀ p : Pixel, fixPixel p ≠ Pixel.nan := by
    intro p
    cases p <;> simp [fixPixel]
  have hnonan : hasNaN (setNaNToZero img) = false := by
    rw [hasNaN, List.any_eq_false]
    intro row hrow
    rw [setNaNToZero] at hrow
    rcases List.mem_map.mp hrow with ⟨row0, _, rfl⟩
    simp only [Bool.not_eq_true]
    rw [List.any_eq_false]
    intro p hp
    rcases List.mem_map.mp hp with ⟨p0, _, rfl⟩
    simp only [Bool.not_eq_true, decide_eq_true_eq]
    exact hfix p0
  refine ⟨hmap, ?_, ?_, hnonan, rfl, hnonan⟩
  · intro i j hij
    rw [hmap, hij]
    rfl
  · intro i j p hij hp
    rw [hmap, hij]
    cases p
    · exact absurd rfl hp
    · rfl

/-! ## update.sh: the sentinel-refresh script

update.sh generates a random sentinel, runs
  sed -i "s/:::.*:::/:::$sentinel:::/g"
over the three files of the fixed update list, conditionally (flag -e)
also over the intentionally-failing exception notebook, and writes a
mobu.yaml heredoc that excludes the exceptions directory exactly when -e
was not given.  A text line is embedded as plain, or as pre:::mid:::post
(the sed pattern rewrites the span between the first and last ::: of a
line).  The git commands and the -m branch choice do not touch file
contents and are outside the model. -/

inductive TextLine where
  | plain : String → TextLine
  | sent : String → String → String → TextLine
deriving DecidableEq

/-- sed -i "s/:::.*:::/:::$sentinel:::/g" applied to a whole file. -/
def sedSentinel (sentinel : String) (file : List TextLine) : List TextLine :=
  file.map (fun l => match l with
    | TextLine.plain s => TextLine.plain s
    | TextLine.sent pre _ post => TextLine.sent pre sentinel post)

/-- files="not-a-notebook.txt simple_notebook_1.ipynb somedir/simple_notebook_2.ipynb" -/
def updateFilesList : List String :=
  ["not-a-notebook.txt", "simple_notebook_1.ipynb",
   "somedir/simple_notebook_2.ipynb"]

/-- exception_file="exceptions/exception_notebook_1.ipynb" -/
def exceptionFile : String := "exceptions/exception_notebook_1.ipynb"

/-- The mobu.yaml heredoc of the else branch (no -e). -/
def mobuYamlKeepExceptions : List TextLine :=
  [TextLine.plain ("exclude_dirs:"),
   TextLine.plain ("  - some-dir"),
   TextLine.plain ("  - exceptions")]

/-- The mobu.yaml heredoc of the -e branch. -/
def mobuYamlDropExceptions : List TextLine :=
  [TextLine.plain ("exclude_dirs:"),
   TextLine.plain ("  - some-dir")]

abbrev FileSystem := String → List TextLine

def fsWrite (fs : FileSystem) (name : String) (content : List TextLine) :
    FileSystem :=
  fun f => if f = name then content else fs f

/-- The argument loop: any argument equal to -e sets
update_exception=true (the -m branch flag is irrelevant to files). -/
def updateExceptionOf (args : List String) : Bool := args.contains ("-e")

/-- The file mutations of one run of update.sh. -/
def runUpdate (fs : FileSystem) (args : List String) (sentinel : String) :
    FileSystem :=
  let fs1 := updateFilesList.foldl
    (fun acc f => fsWrite acc f (sedSentinel sentinel (acc f))) fs
  if updateExceptionOf args then
    let fs2 := fsWrite fs1 exceptionFile (sedSentinel sentinel (fs1 exceptionFile))
    fsWrite fs2 ("mobu.yaml") mobuYamlDropExceptions
  else
    fsWrite fs1 ("mobu.yaml") mobuYamlKeepExceptions

theorem sedSentinel_mid (sentinel : String) (file : List TextLine)
    (pre mid post : String)
    (hm : TextLine.sent pre mid post ∈ sedSentinel sentinel file) :
    mid = sentinel := by
  rcases List.mem_map.mp hm with ⟨l, _, hl⟩
  cases l with
  | plain s => exact absurd hl (by simp)
  | sent a b c =>
    simp only at hl
    cases hl
    rfl

/-- C10: a run of update.sh without -e leaves the exception notebook
unchanged and writes a mobu.yaml excluding both some-dir and exceptions;
a run with -e also rewrites the sentinels of the exception notebook and
writes a mobu.yaml excluding only some-dir; in both cases each of the
three files of the fixed update list gets every :::...::: sentinel
replaced by the new sentinel. -/
theorem c10_update_script (fs : FileSystem) (args : List String)
    (sentinel : String) :
    (updateExceptionOf args = false →
      runUpdate fs args sentinel exceptionFile = fs exceptionFile ∧
      runUpdate fs args sentinel ("mobu.yaml") = mobuYamlKeepExceptions) ∧
    (updateExceptionOf args = true →
      runUpdate fs args sentinel exceptionFile =
        sedSentinel sentinel (fs exceptionFile) ∧
      runUpdate fs args sentinel ("mobu.yaml") = mobuYamlDropExceptions) ∧
    (∀ f ∈ updateFilesList,
      runUpdate fs args sentinel f = sedSentinel sentinel (fs f)) ∧
    (∀ f ∈ updateFilesList, ∀ pre mid post,
      TextLine.sent pre mid post ∈ runUpdate fs args sentinel f →
      mid = sentinel) := by
  have hfold : ∀ f, updateFilesList.foldl
      (fun acc g => fsWrite acc g (sedSentinel sentinel (acc g))) fs f =
      (if f = "somedir/simple_notebook_2.ipynb" then
        sedSentinel sentinel (fs f)
      else if f = "simple_notebook_1.ipynb" then
        sedSentinel sentinel (fs f)
      else if f = "not-a-notebook.txt" then
        sedSentinel sentinel (fs f)
      else fs f) := by
    intro f
    simp only [updateFilesList, List.foldl_cons, List.foldl_nil, fsWrite]
    by_cases h3 : f = "somedir/simple_notebook_2.ipynb"
    · subst h3
      simp
    · by_cases h2 : f = "simple_notebook_1.ipynb"
      · subst h2
        simp
      · by_cases h1 : f = "not-a-notebook.txt"
        · subst h1
          simp
        · simp [h1, h2, h3]
  have hupd : ∀ f ∈ updateFilesList,
      runUpdate fs args sentinel f = sedSentinel sentinel (fs f) := by
    intro f hf
    rcases List.mem_cons.mp hf with rfl | hf2
    · cases hue : updateExceptionOf args <;>
        simp [runUpdate, hue, fsWrite, exceptionFile, hfold]
    rcases List.mem_cons.mp hf2 with rfl | hf3
    · cases hue : updateExceptionOf args <;>
        simp [runUpdate, hue, fsWrite, exceptionFile, hfold]
    rcases List.mem_cons.mp hf3 with rfl | hf4
    · cases hue : updateExceptionOf args <;>
        simp [runUpdate, hue, fsWrite, exceptionFile, hfold]
    · exact absurd hf4 (by simp)
  refine ⟨?_, ?_, hupd, ?_⟩
  · intro hue
    constructor <;> simp only [runUpdate, hue, if_false, Bool.false_eq_true] <;>
      simp [fsWrite, exceptionFile, hfold]
  · intro hue
    constructor <;> simp only [runUpdate, hue, if_true] <;>
      simp [fsWrite, exceptionFile, hfold]
  · intro f hf pre mid post hmem
    rw [hupd f hf] at hmem
    exact sedSentinel_mid sentinel (fs f) pre mid post hmem

end TutorialNB
